import Mathlib

/-!
Verification of the sales-report pipeline in `main.py`
(read Excel → analyze → format report → render chart → deliver via WhatsApp).

The Python program is shallowly embedded: each pipeline function of
`main.py` becomes a Lean definition of the same name.  External library
behaviour (pandas, matplotlib, twilio) is modelled by its documented
request/response contract:

* a pandas DataFrame becomes `Frame`: two column-presence flags for the
  hardcoded column names `Categoria` / `Ventas` plus a list of rows whose
  cells are `Option`-valued (a `none` cell is a NaN / missing cell);
* `df.groupby('Categoria')['Ventas'].sum()` becomes `groupbySum`: rows with
  a missing category are dropped, keys are kept sorted ascending (pandas
  `sort=True` default), missing measure cells contribute nothing to a sum;
* `df['Ventas'].describe()` becomes `describe`; since the standard
  deviation of integer data is irrational, the `Describe` record stores the
  sample variance (`var`) from which the std line is rendered;
* Python exceptions are modelled by `Except` at the boundary of functions
  that may raise, and by explicit branches where the source catches them;
* the matplotlib figure registry is modelled by a count of open figures
  threaded through `generar_grafico`;
* pandas `Series.to_string()` column alignment is abstracted: a series is
  rendered as one `label value` line per entry, newline-separated.
-/

/-- One row of the spreadsheet: the `Categoria` cell and the `Ventas` cell,
each possibly missing (NaN). -/
structure Row where
  categoria : Option String
  ventas : Option ℚ
deriving DecidableEq, Repr

/-- The in-memory table produced by `pd.read_excel`: whether the two
hardcoded columns exist, and the rows. -/
structure Frame where
  hasCategoria : Bool
  hasVentas : Bool
  rows : List Row
deriving DecidableEq, Repr

/-- First-match lookup in an association list of per-category sums. -/
def lookupQ : List (String × ℚ) → String → Option ℚ
  | [], _ => none
  | (k, w) :: rest, c => if c = k then some w else lookupQ rest c

/-- Insert one observation into the sorted per-category accumulator:
add to an existing key, or insert the new key at its sorted position. -/
def addRow : List (String × ℚ) → String → ℚ → List (String × ℚ)
  | [], c, v => [(c, v)]
  | (k, w) :: rest, c, v =>
    if c = k then (k, w + v) :: rest
    else if c < k then (c, v) :: (k, w) :: rest
    else (k, w) :: addRow rest c v

/-- Fold the rows into the per-category sums, as
`df.groupby('Categoria')['Ventas'].sum()` does: rows whose category cell is
missing are dropped; a missing measure cell is skipped by the sum
(contributes 0). -/
def groupbySumAux (acc : List (String × ℚ)) : List Row → List (String × ℚ)
  | [] => acc
  | r :: rest =>
    match r.categoria with
    | none => groupbySumAux acc rest
    | some c => groupbySumAux (addRow acc c (r.ventas.getD 0)) rest

/-- The Category Aggregate: per-category summed measure, keys sorted
ascending. -/
def groupbySum (rows : List Row) : List (String × ℚ) :=
  groupbySumAux [] rows

/-- Insert into a sorted list of rationals (used to model the order
statistics of `describe`). -/
def insertQ (x : ℚ) : List ℚ → List ℚ
  | [] => [x]
  | y :: ys => if x ≤ y then x :: y :: ys else y :: insertQ x ys

/-- Sort a list of rationals ascending. -/
def sortQ (l : List ℚ) : List ℚ :=
  l.foldr insertQ []

/-- Linear-interpolation quantile on an ascending list, pandas default
(`interpolation='linear'`): position `h = p·(n-1)`, value
`x⌊h⌋ + (h-⌊h⌋)·(x⌊h⌋₊₁ - x⌊h⌋)`. -/
def quantile (sorted : List ℚ) (p : ℚ) : Option ℚ :=
  match sorted with
  | [] => none
  | _ :: _ =>
    let n := sorted.length
    let h : ℚ := p * ((n : ℚ) - 1)
    let i : ℕ := h.floor.toNat
    let lo := sorted.getD i 0
    let hi := sorted.getD (min (i + 1) (n - 1)) 0
    some (lo + (h - (i : ℚ)) * (hi - lo))

/-- The Descriptive Statistics record of `df['Ventas'].describe()`:
count, mean, standard deviation (stored as the sample variance `var`,
`none` encoding pandas NaN), min, quartiles, max. -/
structure Describe where
  count : ℕ
  mean : Option ℚ
  var : Option ℚ
  min : Option ℚ
  q25 : Option ℚ
  q50 : Option ℚ
  q75 : Option ℚ
  max : Option ℚ
deriving DecidableEq, Repr

/-- `df['Ventas'].describe()`: computed over the non-missing cells of the
measure column.  `count` is the number of non-NaN cells; with no data the
other statistics are NaN (`none`); with a single datum the sample standard
deviation is NaN. -/
def describe (rows : List Row) : Describe :=
  let xs := rows.filterMap Row.ventas
  let n := xs.length
  let s := sortQ xs
  { count := n
  , mean := if n = 0 then none else some (xs.sum / (n : ℚ))
  , var :=
      if 2 ≤ n then
        some (((xs.map fun x => (x - xs.sum / (n : ℚ)) ^ 2).sum) / ((n : ℚ) - 1))
      else none
  , min := s.head?
  , q25 := quantile s (1 / 4)
  , q50 := quantile s (1 / 2)
  , q75 := quantile s (3 / 4)
  , max := s.getLast? }

/-- `realizar_analisis` (main.py:31): given no table, propagates `None`;
otherwise computes the per-category sums and the descriptive statistics.
`df.groupby('Categoria')['Ventas'].sum()` raises `KeyError` when either
column is missing; the function's `except` catches it and returns `None`. -/
def realizar_analisis (df : Option Frame) : Option (List (String × ℚ) × Describe) :=
  match df with
  | none => none
  | some df =>
    if df.hasCategoria && df.hasVentas then
      some (groupbySum df.rows, describe df.rows)
    else
      none

/-- Is the category present in some row of the table? -/
def hasCat (rows : List Row) (c : String) : Bool :=
  rows.any fun r => r.categoria == some c

/-- The sum of the measure values of the rows of one category (missing
measure cells skipped). -/
def sumFor (rows : List Row) (c : String) : ℚ :=
  ((rows.filter fun r => r.categoria == some c).filterMap Row.ventas).sum

/-- The example table of the spec:
rows [(Electronics,100), (Electronics,50), (Books,30)]. -/
def exampleFrame : Frame :=
  { hasCategoria := true
  , hasVentas := true
  , rows :=
      [ { categoria := some "Electronics", ventas := some 100 }
      , { categoria := some "Electronics", ventas := some 50 }
      , { categoria := some "Books", ventas := some 30 } ] }

/-- The accumulator invariant: keys strictly ascending. -/
def KeysSorted (l : List (String × ℚ)) : Prop :=
  l.Pairwise fun p q => p.1 < q.1

theorem lookupQ_eq_none_of_forall_ne {l : List (String × ℚ)} {c : String}
    (h : ∀ p ∈ l, c ≠ p.1) : lookupQ l c = none := by
  induction l with
  | nil => rfl
  | cons p rest ih =>
    have hp : c ≠ p.1 := h p (List.mem_cons_self p rest)
    obtain ⟨k, w⟩ := p
    simp only [lookupQ, if_neg hp]
    exact ih fun q hq => h q (List.mem_cons_of_mem _ hq)

theorem fst_mem_of_mem_addRow {l : List (String × ℚ)} {c : String} {v : ℚ}
    {p : String × ℚ} (h : p ∈ addRow l c v) :
    p.1 = c ∨ p.1 ∈ l.map Prod.fst := by
  induction l with
  | nil =>
    simp only [addRow, List.mem_singleton] at h
    subst h
    exact Or.inl rfl
  | cons q rest ih =>
    obtain ⟨k, w⟩ := q
    simp only [addRow] at h
    by_cases h1 : c = k
    · simp only [if_pos h1, List.mem_cons] at h
      rcases h with h | h
      · subst h; right; simp
      · right; simp only [List.map_cons, List.mem_cons]
        exact Or.inr (List.mem_map_of_mem Prod.fst h)
    · simp only [if_neg h1] at h
      by_cases h2 : c < k
      · simp only [if_pos h2, List.mem_cons] at h
        rcases h with h | h | h
        · subst h; exact Or.inl rfl
        · subst h; right; simp
        · right; simp only [List.map_cons, List.mem_cons]
          exact Or.inr (List.mem_map_of_mem Prod.fst h)
      · simp only [if_neg h2, List.mem_cons] at h
        rcases h with h | h
        · subst h; right; simp
        · rcases ih h with h | h
          · exact Or.inl h
          · right; simp only [List.map_cons, List.mem_cons]
            exact Or.inr h

theorem keysSorted_addRow {l : List (String × ℚ)} {c : String} {v : ℚ}
    (h : KeysSorted l) : KeysSorted (addRow l c v) := by
  induction l with
  | nil => simp [addRow, KeysSorted]
  | cons q rest ih =>
    obtain ⟨k, w⟩ := q
    rw [KeysSorted, List.pairwise_cons] at h
    obtain ⟨hk, hrest⟩ := h
    simp only [addRow]
    by_cases h1 : c = k
    · simp only [if_pos h1]
      exact List.pairwise_cons.mpr ⟨hk, hrest⟩
    · simp only [if_neg h1]
      by_cases h2 : c < k
      · simp only [if_pos h2]
        refine List.pairwise_cons.mpr ⟨?_, List.pairwise_cons.mpr ⟨hk, hrest⟩⟩
        intro p hp
        rcases List.mem_cons.mp hp with h | h
        · subst h; exact h2
        · exact lt_trans h2 (hk p h)
      · simp only [if_neg h2]
        have hkc : k < c := lt_of_le_of_ne (le_of_not_lt h2) fun e => h1 e.symm
        refine List.pairwise_cons.mpr ⟨?_, ih hrest⟩
        intro p hp
        rcases fst_mem_of_mem_addRow hp with h | h
        · rw [h]; exact hkc
        · obtain ⟨q, hq, hq1⟩ := List.mem_map.mp h
          rw [← hq1]; exact hk q hq

theorem lookupQ_addRow {l : List (String × ℚ)} (hs : KeysSorted l)
    (c : String) (v : ℚ) (x : String) :
    lookupQ (addRow l c v) x =
      if x = c then some ((lookupQ l x).getD 0 + v) else lookupQ l x := by
  induction l with
  | nil =>
    simp only [addRow, lookupQ]
    by_cases h : x = c
    · simp [h]
    · simp [h]
  | cons q rest ih =>
    obtain ⟨k, w⟩ := q
    rw [KeysSorted, List.pairwise_cons] at hs
    obtain ⟨hk, hrest⟩ := hs
    simp only [addRow]
    by_cases h1 : c = k
    · subst h1
      simp only [if_pos rfl, lookupQ]
      by_cases h : x = c
      · simp [h]
      · simp [h]
    · simp only [if_neg h1]
      by_cases h2 : c < k
      · simp only [if_pos h2, lookupQ]
        by_cases h : x = c
        · subst h
          have hne : x ≠ k := ne_of_lt h2
          have : lookupQ rest x = none := by
            refine lookupQ_eq_none_of_forall_ne fun p hp => ?_
            exact ne_of_lt (lt_trans h2 (hk p hp))
          simp [hne, this]
        · simp [h]
      · simp only [if_neg h2, lookupQ]
        by_cases h : x = k
        · subst h
          have : ¬ x = c := fun e => h1 e.symm
          simp [this]
        · simp only [if_neg h]
          exact ih hrest

theorem keysSorted_groupbySumAux (rows : List Row) :
    ∀ acc : List (String × ℚ), KeysSorted acc → KeysSorted (groupbySumAux acc rows) := by
  induction rows with
  | nil => intro acc h; exact h
  | cons r rest ih =>
    intro acc h
    simp only [groupbySumAux]
    cases r.categoria with
    | none => exact ih acc h
    | some c => exact ih _ (keysSorted_addRow h)

theorem hasCat_cons (r : Row) (rest : List Row) (c : String) :
    hasCat (r :: rest) c = ((r.categoria == some c) || hasCat rest c) := by
  simp [hasCat, List.any_cons]

theorem sumFor_cons (r : Row) (rest : List Row) (c : String) :
    sumFor (r :: rest) c =
      (if r.categoria = some c then r.ventas.getD 0 else 0) + sumFor rest c := by
  simp only [sumFor, List.filter_cons]
  by_cases h : r.categoria = some c
  · rw [if_pos h, if_pos (by simp [h])]
    simp only [List.filterMap_cons]
    cases hv : r.ventas with
    | none => simp
    | some v => simp
  · rw [if_neg h, if_neg (by simp [h])]
    simp

theorem sumFor_eq_zero_of_not_hasCat {rows : List Row} {c : String}
    (h : ¬ hasCat rows c = true) : sumFor rows c = 0 := by
  have hfil : (rows.filter fun r => r.categoria == some c) = [] := by
    rw [List.filter_eq_nil_iff]
    intro r hr hc
    exact h (List.any_eq_true.mpr ⟨r, hr, hc⟩)
  rw [sumFor, hfil]
  simp

theorem lookupQ_groupbySumAux (rows : List Row) :
    ∀ acc : List (String × ℚ), KeysSorted acc → ∀ c : String,
      lookupQ (groupbySumAux acc rows) c =
        if hasCat rows c then some ((lookupQ acc c).getD 0 + sumFor rows c)
        else lookupQ acc c := by
  induction rows with
  | nil =>
    intro acc _ c
    simp [groupbySumAux, hasCat, sumFor]
  | cons r rest ih =>
    intro acc hacc c
    simp only [groupbySumAux]
    cases hr : r.categoria with
    | none =>
      rw [ih acc hacc c, hasCat_cons, sumFor_cons, hr]
      simp
    | some c0 =>
      rw [ih _ (keysSorted_addRow hacc) c, hasCat_cons, sumFor_cons, hr,
        lookupQ_addRow hacc]
      by_cases h : c = c0
      · subst h
        by_cases hrest : hasCat rest c
        · simp [hrest, add_assoc]
        · simp [hrest, sumFor_eq_zero_of_not_hasCat hrest]
      · have h2 : ¬ c0 = c := fun e => h e.symm
        by_cases hrest : hasCat rest c
        · simp [hrest, h, h2]
        · simp [hrest, h, h2]

/-- The characteristic equation of the Category Aggregate: a category maps
to the sum of its measure values when present in the table, and to nothing
at all when absent. -/
theorem lookupQ_groupbySum (rows : List Row) (c : String) :
    lookupQ (groupbySum rows) c =
      if hasCat rows c then some (sumFor rows c) else none := by
  rw [groupbySum, lookupQ_groupbySumAux rows [] (by simp [KeysSorted]) c]
  simp [lookupQ]

theorem keysSorted_groupbySum (rows : List Row) : KeysSorted (groupbySum rows) :=
  keysSorted_groupbySumAux rows [] (by simp [KeysSorted])

theorem keys_nodup_groupbySum (rows : List Row) :
    ((groupbySum rows).map Prod.fst).Nodup := by
  have h := keysSorted_groupbySum rows
  rw [KeysSorted] at h
  have : ((groupbySum rows).map Prod.fst).Pairwise (· < ·) :=
    List.pairwise_map.mpr h
  exact this.imp ne_of_lt

theorem mem_of_lookupQ_eq_some {l : List (String × ℚ)} {c : String} {v : ℚ}
    (h : lookupQ l c = some v) : (c, v) ∈ l := by
  induction l with
  | nil => simp [lookupQ] at h
  | cons q rest ih =>
    obtain ⟨k, w⟩ := q
    simp only [lookupQ] at h
    by_cases he : c = k
    · rw [if_pos he] at h
      obtain rfl := Option.some.inj h
      subst he
      exact List.mem_cons_self _ _
    · rw [if_neg he] at h
      exact List.mem_cons_of_mem _ (ih h)

theorem lookupQ_eq_some_of_mem {l : List (String × ℚ)} {c : String} {v : ℚ}
    (hn : (l.map Prod.fst).Nodup) (h : (c, v) ∈ l) : lookupQ l c = some v := by
  induction l with
  | nil => simp at h
  | cons q rest ih =>
    obtain ⟨k, w⟩ := q
    simp only [List.map_cons, List.nodup_cons] at hn
    obtain ⟨hk, hrest⟩ := hn
    rcases List.mem_cons.mp h with h | h
    · obtain ⟨rfl, rfl⟩ := Prod.mk.inj h
      simp [lookupQ]
    · have hckmem : c ∈ rest.map Prod.fst := List.mem_map_of_mem Prod.fst h
      have hck : ¬ c = k := fun e => hk (e ▸ hckmem)
      simp only [lookupQ, if_neg hck]
      exact ih hrest h

example : groupbySum exampleFrame.rows = [("Books", 30), ("Electronics", 150)] := by
  norm_num [groupbySum, groupbySumAux, addRow, exampleFrame]
  decide

example : (describe exampleFrame.rows).count = 3 ∧
    (describe exampleFrame.rows).mean = some 60 ∧
    (describe exampleFrame.rows).min = some 30 ∧
    (describe exampleFrame.rows).max = some 100 := by
  norm_num [describe, exampleFrame, sortQ, insertQ, quantile, List.filterMap]

/-! ## Report Formatter (`generar_reporte`, main.py:52) -/

/-- Rendering of one numeric value by the external library (the exact
float formatting of pandas is abstracted by the canonical rational
rendering). -/
def valRepr (q : ℚ) : String := toString q

/-- Rendering of a possibly-NaN value. -/
def optRepr : Option ℚ → String
  | none => "NaN"
  | some q => valRepr q

/-- Rendering of the std line: the standard deviation is the square root
of the stored sample variance (irrational in general, so rendered
symbolically; no claim depends on this numeral). -/
def stdRepr : Option ℚ → String
  | none => "NaN"
  | some v => "sqrt " ++ valRepr v

/-- `Series.to_string()` of pandas, abstracted: one `label value` line per
entry, newline-separated (column alignment padding is dropped). -/
def seriesToString (entries : List (String × String)) : String :=
  String.intercalate "\n" (entries.map fun p => p.1 ++ " " ++ p.2)

/-- The labelled entries of the per-category sums Series, in its key
order. -/
def aggSeries (vc : List (String × ℚ)) : List (String × String) :=
  vc.map fun p => (p.1, valRepr p.2)

/-- The labelled entries of the `describe()` Series, in pandas' fixed
order. -/
def describeSeries (st : Describe) : List (String × String) :=
  [ ("count", valRepr (st.count : ℚ))
  , ("mean", optRepr st.mean)
  , ("std", stdRepr st.var)
  , ("min", optRepr st.min)
  , ("25%", optRepr st.q25)
  , ("50%", optRepr st.q50)
  , ("75%", optRepr st.q75)
  , ("max", optRepr st.max) ]

/-- The fixed failure message of `generar_reporte` (main.py:56). -/
def fixedFailMsg : String :=
  "No se pudo generar el reporte debido a errores en el análisis."

/-- `generar_reporte` (main.py:52): with either analysis artifact absent,
the fixed failure message; otherwise the banner/category/statistics
concatenation built exactly as the source's incremental `reporte +=`
lines.  The `try` body only concatenates strings, so the `except` branch
(main.py:67) is unreachable and the function is total. -/
def generar_reporte (vc : Option (List (String × ℚ))) (st : Option Describe) :
    String :=
  match vc, st with
  | some v, some s =>
    let r1 := "--- Reporte de Ventas ---\n\n"
    let r2 := r1 ++ "Total de Ventas por Categoría:\n"
    let r3 := r2 ++ seriesToString (aggSeries v) ++ "\n\n"
    let r4 := r3 ++ "Estadísticas Descriptivas de Ventas:\n"
    let r5 := r4 ++ seriesToString (describeSeries s) ++ "\n"
    r5 ++ "\n--- Fin del Reporte ---"
  | _, _ => fixedFailMsg

/-! ## Chart Renderer (`generar_grafico`, main.py:88)

The matplotlib figure registry is modelled by a count of currently open
figures threaded through the function.  `plt.figure()` opens one;
`plt.close()` releases one.  When `plt.savefig` raises, the `except`
branch (main.py:106) logs and returns `None`; control never reaches the
`plt.close()` on main.py:103. -/

/-- `generar_grafico` (main.py:88): given the aggregate (or its absence),
whether the image write fails, and the count of open figures, return the
chart path (or `None`) and the new count of open figures. -/
def generar_grafico (vc : Option (List (String × ℚ))) (nombre : String)
    (saveFails : Bool) (figsOpen : ℕ) : Option String × ℕ :=
  match vc with
  | none => (none, figsOpen)
  | some _ =>
    let figs1 := figsOpen + 1
    if saveFails then
      (none, figs1)
    else
      (some ("reports/" ++ nombre), figs1 - 1)

/-! ## Delivery Agent (`enviar_reporte_whatsapp`, main.py:71) -/

/-- The message handed to the provider: body text and optional media
reference. -/
structure SendAttempt where
  body : String
  media : Option String
deriving DecidableEq, Repr

/-- What the Delivery Agent did: the attempted message, the delivery
identifier when the provider accepted it, and whether a provider failure
was logged. -/
structure SendResult where
  attempt : SendAttempt
  sid : Option String
  errorLogged : Bool
deriving DecidableEq, Repr

/-- The external provider call `client.messages.create` (main.py:77):
accepts and returns a delivery identifier, or raises
(authentication, network, quota). -/
def twilioCreate (provFails : Bool) (sid : String) (_body : String)
    (_media : Option String) : Except String String :=
  if provFails then Except.error "TwilioRestException" else Except.ok sid

/-- `enviar_reporte_whatsapp` (main.py:71): builds a text-only message
from the report and hands it to the provider inside a `try`; the bare
`except` (main.py:85) catches any provider failure and logs it, so the
function itself never raises (its result is always `Except.ok`). -/
def enviar_reporte_whatsapp (provFails : Bool) (sid : String)
    (reporte : String) : Except String SendResult :=
  match twilioCreate provFails sid reporte none with
  | Except.ok s =>
    Except.ok { attempt := { body := reporte, media := none }
              , sid := some s, errorLogged := false }
  | Except.error _ =>
    Except.ok { attempt := { body := reporte, media := none }
              , sid := none, errorLogged := true }

/-! ## Data Loader and entry point (main.py:17, main.py:128) -/

/-- The outcome of `pd.read_excel` on the configured path: the file is
read into a table, is missing (`FileNotFoundError`, main.py:24), or is
present but unreadable (the generic `except`, main.py:27). -/
inductive LoadOutcome where
  | ok (f : Frame)
  | notFound
  | parseError
deriving DecidableEq, Repr

/-- The external world of one run: what loading the input file yields,
whether the chart write fails, whether the messaging provider fails, and
the delivery identifier it would return. -/
structure Env where
  load : LoadOutcome
  saveFails : Bool
  provFails : Bool
  sid : String
deriving DecidableEq, Repr

/-- `leer_datos_excel` (main.py:17): returns the table, or `None` after
catching `FileNotFoundError` or any other read error. -/
def leer_datos_excel (e : Env) : Option Frame :=
  match e.load with
  | LoadOutcome.ok f => some f
  | LoadOutcome.notFound => none
  | LoadOutcome.parseError => none

/-- The observable outcome of one run of the `__main__` block
(main.py:128): which pipeline stages ran, what message was handed to the
provider, how many matplotlib figures stayed open, and the exception (if
any) caught by the entry point's outer `except` (main.py:154). -/
structure Trace where
  analyzerCalled : Bool
  formatterCalled : Bool
  rendererCalled : Bool
  deliveryCalled : Bool
  deliveryAttempt : Option SendAttempt
  openFigures : ℕ
  entryCaught : Option String
deriving DecidableEq, Repr

/-- The `__main__` block (main.py:128).  Note main.py:135 unpacks the
result of `realizar_analisis` into two variables: when that result is
`None` the unpacking itself raises
`TypeError: cannot unpack non-iterable NoneType object`, which only the
entry point's outer `except` catches — the guard on main.py:137 and the
`else` on main.py:149 are unreachable for a failed analysis. -/
def mainFlow (e : Env) : Trace :=
  match leer_datos_excel e with
  | none =>
    { analyzerCalled := false, formatterCalled := false
    , rendererCalled := false, deliveryCalled := false
    , deliveryAttempt := none, openFigures := 0, entryCaught := none }
  | some df =>
    match realizar_analisis (some df) with
    | none =>
      { analyzerCalled := true, formatterCalled := false
      , rendererCalled := false, deliveryCalled := false
      , deliveryAttempt := none, openFigures := 0
      , entryCaught := some "TypeError: cannot unpack non-iterable NoneType object" }
    | some (vc, st) =>
      let reporte := generar_reporte (some vc) (some st)
      let render := generar_grafico (some vc) "ventas_categoria.png" e.saveFails 0
      let send := enviar_reporte_whatsapp e.provFails e.sid reporte
      { analyzerCalled := true, formatterCalled := true
      , rendererCalled := true, deliveryCalled := true
      , deliveryAttempt :=
          match send with
          | Except.ok r => some r.attempt
          | Except.error _ => none
      , openFigures := render.2
      , entryCaught :=
          match send with
          | Except.ok _ => none
          | Except.error msg => some msg }

/-! ## Helper lemmas and concrete inputs -/

theorem strdata (s t : String) : (s ++ t).data = s.data ++ t.data := rfl

theorem length_filterMap_ventas (rows : List Row) :
    (rows.filterMap Row.ventas).length =
      rows.countP fun r => r.ventas.isSome := by
  induction rows with
  | nil => rfl
  | cons r rest ih =>
    simp only [List.filterMap_cons, List.countP_cons]
    cases hv : r.ventas with
    | none => simp [ih, hv]
    | some v => simp [ih, hv]

/-- A table whose category column is missing. -/
def noCategoriaFrame : Frame :=
  { hasCategoria := false
  , hasVentas := true
  , rows := [ { categoria := none, ventas := some 10 } ] }

/-- A run on a table whose category column is missing. -/
def noCategoriaEnv : Env :=
  { load := LoadOutcome.ok noCategoriaFrame
  , saveFails := false, provFails := false, sid := "SM1" }

/-- A run on the spec's example table in which the chart write fails. -/
def chartFailEnv : Env :=
  { load := LoadOutcome.ok exampleFrame
  , saveFails := true, provFails := false, sid := "SM2" }

/-- A run in which the input file is missing. -/
def missingFileEnv : Env :=
  { load := LoadOutcome.notFound
  , saveFails := false, provFails := false, sid := "SM3" }

/-! ## Claims -/

/-- C1: for every well-formed table with the `Categoria` and `Ventas`
columns, the analysis succeeds and the Category Aggregate has nodup keys,
maps every category present in the table to the sum of its measure values,
maps absent categories to nothing, and every entry is the sum of a present
category; on the example table [(Electronics,100), (Electronics,50),
(Books,30)] the aggregate is {Books: 30, Electronics: 150} with exactly two
entries and the statistics have count 3, mean 60, min 30, max 100. -/
theorem realizar_analisis_category_aggregate :
    (∀ df : Frame, df.hasCategoria = true → df.hasVentas = true →
      realizar_analisis (some df) = some (groupbySum df.rows, describe df.rows) ∧
      ((groupbySum df.rows).map Prod.fst).Nodup ∧
      (∀ c : String, lookupQ (groupbySum df.rows) c =
        if hasCat df.rows c then some (sumFor df.rows c) else none) ∧
      (∀ c : String, ∀ v : ℚ, (c, v) ∈ groupbySum df.rows →
        hasCat df.rows c = true ∧ v = sumFor df.rows c)) ∧
    groupbySum exampleFrame.rows = [("Books", 30), ("Electronics", 150)] ∧
    lookupQ (groupbySum exampleFrame.rows) "Electronics" = some 150 ∧
    lookupQ (groupbySum exampleFrame.rows) "Books" = some 30 ∧
    (groupbySum exampleFrame.rows).length = 2 ∧
    (describe exampleFrame.rows).count = 3 ∧
    (describe exampleFrame.rows).mean = some 60 ∧
    (describe exampleFrame.rows).min = some 30 ∧
    (describe exampleFrame.rows).max = some 100 := by
  constructor
  · intro df h1 h2
    refine ⟨by simp [realizar_analisis, h1, h2], keys_nodup_groupbySum df.rows,
      fun c => lookupQ_groupbySum df.rows c, fun c v hm => ?_⟩
    have hl : lookupQ (groupbySum df.rows) c = some v :=
      lookupQ_eq_some_of_mem (keys_nodup_groupbySum df.rows) hm
    rw [lookupQ_groupbySum df.rows c] at hl
    by_cases hc : hasCat df.rows c
    · rw [if_pos hc] at hl
      exact ⟨hc, (Option.some.inj hl).symm⟩
    · rw [if_neg hc] at hl
      exact absurd hl (Option.some_ne_none v).symm
  · have hagg : groupbySum exampleFrame.rows = [("Books", 30), ("Electronics", 150)] := by
      norm_num [groupbySum, groupbySumAux, addRow, exampleFrame]
      decide
    refine ⟨hagg, ?_, ?_, ?_, ?_⟩
    · rw [hagg]; simp only [lookupQ]; rw [if_neg (by decide)]; simp
    · rw [hagg]; simp only [lookupQ]; simp
    · rw [hagg]; rfl
    · norm_num [describe, exampleFrame, sortQ, insertQ, quantile, List.filterMap]

/-- Witness for C1: the universal part instantiated at the example table. -/
theorem realizar_analisis_category_aggregate_witness :
    realizar_analisis (some exampleFrame) =
      some (groupbySum exampleFrame.rows, describe exampleFrame.rows) ∧
    ((groupbySum exampleFrame.rows).map Prod.fst).Nodup :=
  ⟨(realizar_analisis_category_aggregate.1 exampleFrame rfl rfl).1,
   (realizar_analisis_category_aggregate.1 exampleFrame rfl rfl).2.1⟩

/-- C2 counterexample: on a run whose table lacks the category column, the
Report Formatter is NOT invoked and an exception (the `TypeError` raised by
unpacking the analyzer's `None` result at main.py:135) IS thrown and caught
only by the entry point's outer handler — contradicting the claim that the
Formatter is then invoked and no exception is thrown. -/
theorem missing_categoria_claim_false :
    ¬ ((mainFlow noCategoriaEnv).formatterCalled = true ∧
       (mainFlow noCategoriaEnv).entryCaught = none) := by
  decide

/-- C2 as amended: with the category column missing, the Analyzer reports
the failure and returns no result; the entry point's unpacking of that
absent result raises a `TypeError` that only the outer catch-all handler
absorbs, and the Report Formatter (like the renderer and the delivery
agent) is never invoked in that run.  Had the Formatter been invoked with
an absent input it would have returned the fixed failure message without
throwing. -/
theorem missing_categoria_behavior (e : Env) (df : Frame)
    (hload : e.load = LoadOutcome.ok df) (hc : df.hasCategoria = false) :
    realizar_analisis (some df) = none ∧
    (mainFlow e).analyzerCalled = true ∧
    (mainFlow e).formatterCalled = false ∧
    (mainFlow e).rendererCalled = false ∧
    (mainFlow e).deliveryCalled = false ∧
    (mainFlow e).entryCaught =
      some "TypeError: cannot unpack non-iterable NoneType object" ∧
    (∀ st : Option Describe, generar_reporte none st = fixedFailMsg) := by
  have han : realizar_analisis (some df) = none := by
    simp [realizar_analisis, hc]
  have hmf : mainFlow e =
      { analyzerCalled := true, formatterCalled := false
      , rendererCalled := false, deliveryCalled := false
      , deliveryAttempt := none, openFigures := 0
      , entryCaught :=
          some "TypeError: cannot unpack non-iterable NoneType object" } := by
    simp [mainFlow, leer_datos_excel, hload, han]
  refine ⟨han, ?_, ?_, ?_, ?_, ?_, fun st => rfl⟩ <;> rw [hmf]

/-- Witness for C2's amended theorem: the concrete run with the
category-less table. -/
theorem missing_categoria_behavior_witness :
    realizar_analisis (some noCategoriaFrame) = none ∧
    (mainFlow noCategoriaEnv).formatterCalled = false :=
  ⟨(missing_categoria_behavior noCategoriaEnv noCategoriaFrame rfl rfl).1,
   (missing_categoria_behavior noCategoriaEnv noCategoriaFrame rfl rfl).2.2.1⟩

/-- C3 (code bug): on a successful write the renderer releases its figure
(0 remain open), but when the write fails the `except` branch skips
`plt.close()` and the figure stays open (1 remains) — the claim's
"released ... when it fails" is exactly what the code does not do. -/
theorem generar_grafico_figure_leak :
    generar_grafico (some [("Books", 30), ("Electronics", 150)])
        "ventas_categoria.png" false 0 =
      (some "reports/ventas_categoria.png", 0) ∧
    generar_grafico (some [("Books", 30), ("Electronics", 150)])
        "ventas_categoria.png" true 0 =
      (none, 1) := by
  exact ⟨rfl, rfl⟩

/-- C4: when the input file does not exist the Data Loader returns no
table and no downstream stage (Analyzer, Formatter, Renderer, Delivery
Agent) runs: the run's trace is empty. -/
theorem missing_file_no_downstream (e : Env) (h : leer_datos_excel e = none) :
    mainFlow e =
      { analyzerCalled := false, formatterCalled := false
      , rendererCalled := false, deliveryCalled := false
      , deliveryAttempt := none, openFigures := 0, entryCaught := none } := by
  simp [mainFlow, h]

/-- Witness for C4: the run with the missing input file. -/
theorem missing_file_no_downstream_witness :
    mainFlow missingFileEnv =
      { analyzerCalled := false, formatterCalled := false
      , rendererCalled := false, deliveryCalled := false
      , deliveryAttempt := none, openFigures := 0, entryCaught := none } :=
  missing_file_no_downstream missingFileEnv rfl

/-- C5: with either analysis artifact absent the Report Formatter returns
the fixed failure message; the function is total (never raises). -/
theorem generar_reporte_absent_fixed_message (vc : Option (List (String × ℚ)))
    (st : Option Describe) (h : vc = none ∨ st = none) :
    generar_reporte vc st = fixedFailMsg := by
  match vc, st with
  | none, _ => rfl
  | some v, none => rfl
  | some v, some s =>
    rcases h with h | h <;> exact absurd h (Option.some_ne_none _)

/-- Witness for C5: the formatter after a failed analysis. -/
theorem generar_reporte_absent_fixed_message_witness :
    generar_reporte none (some (describe exampleFrame.rows)) = fixedFailMsg :=
  generar_reporte_absent_fixed_message none (some (describe exampleFrame.rows))
    (Or.inl rfl)

/-- C6: with both artifacts present the report is, in fixed order, the
title banner, one line per category (label then summed value, in the
aggregate's key order), a blank line, one labelled line per statistic of
the descriptive-statistics block, and the closing banner. -/
theorem generar_reporte_layout (v : List (String × ℚ)) (s : Describe) :
    generar_reporte (some v) (some s) =
      "--- Reporte de Ventas ---" ++ "\n" ++ "\n" ++
      "Total de Ventas por Categoría:" ++ "\n" ++
      String.intercalate "\n" ((aggSeries v).map fun p => p.1 ++ " " ++ p.2) ++
      "\n" ++ "\n" ++
      "Estadísticas Descriptivas de Ventas:" ++ "\n" ++
      String.intercalate "\n" ((describeSeries s).map fun p => p.1 ++ " " ++ p.2) ++
      "\n" ++ "\n" ++ "--- Fin del Reporte ---" ∧
    (aggSeries v).map Prod.fst = v.map Prod.fst ∧
    (describeSeries s).map Prod.fst =
      ["count", "mean", "std", "min", "25%", "50%", "75%", "max"] := by
  refine ⟨?_, ?_, rfl⟩
  · apply String.ext
    simp [generar_reporte, seriesToString, strdata]
  · simp [aggSeries]

/-- C7: whenever the report was generated and the chart write fails, the
renderer yields no artifact yet the Delivery Agent is still invoked and is
handed the text-only message whose body is exactly the report. -/
theorem delivery_despite_chart_failure (e : Env) (df : Frame)
    (hload : e.load = LoadOutcome.ok df)
    (hc : df.hasCategoria = true) (hv : df.hasVentas = true)
    (hfail : e.saveFails = true) :
    (generar_grafico (some (groupbySum df.rows)) "ventas_categoria.png"
        e.saveFails 0).1 = none ∧
    (mainFlow e).deliveryCalled = true ∧
    (mainFlow e).deliveryAttempt =
      some { body := generar_reporte (some (groupbySum df.rows))
                        (some (describe df.rows))
           , media := none } := by
  have han : realizar_analisis (some df) =
      some (groupbySum df.rows, describe df.rows) := by
    simp [realizar_analisis, hc, hv]
  refine ⟨by simp [generar_grafico, hfail], ?_, ?_⟩ <;>
    cases hp : e.provFails <;>
      simp [mainFlow, leer_datos_excel, hload, han,
        enviar_reporte_whatsapp, twilioCreate, hp]

/-- Witness for C7: the run on the example table whose chart write
fails. -/
theorem delivery_despite_chart_failure_witness :
    (mainFlow chartFailEnv).deliveryCalled = true :=
  (delivery_despite_chart_failure chartFailEnv exampleFrame rfl rfl rfl rfl).2.1

/-- C8: whatever the messaging provider does, the Delivery Agent catches
the failure inside its own `try`, logs it exactly when the provider
failed, and returns normally — its result is always `Except.ok`, so no
exception crosses its boundary toward the entry point. -/
theorem enviar_reporte_whatsapp_no_crash (provFails : Bool)
    (sid reporte : String) :
    enviar_reporte_whatsapp provFails sid reporte =
      Except.ok { attempt := { body := reporte, media := none }
                , sid := if provFails then none else some sid
                , errorLogged := provFails } := by
  cases provFails <;> rfl

/-- C9: whenever the Analyzer produces a result, the count field of its
Descriptive Statistics equals the number of rows whose measure cell is
non-missing. -/
theorem describe_count_nonmissing (df : Frame) (a : List (String × ℚ))
    (st : Describe) (h : realizar_analisis (some df) = some (a, st)) :
    st.count = df.rows.countP fun r => r.ventas.isSome := by
  rw [realizar_analisis] at h
  by_cases hcols : (df.hasCategoria && df.hasVentas) = true
  · rw [if_pos hcols] at h
    obtain ⟨-, hst⟩ := Prod.mk.inj (Option.some.inj h)
    rw [← hst]
    exact length_filterMap_ventas df.rows
  · rw [if_neg hcols] at h
    exact absurd h (Option.noConfusion)

/-- Witness for C9: the example table has three non-missing measure
cells. -/
theorem describe_count_nonmissing_witness :
    (describe exampleFrame.rows).count =
      exampleFrame.rows.countP fun r => r.ventas.isSome :=
  describe_count_nonmissing exampleFrame (groupbySum exampleFrame.rows)
    (describe exampleFrame.rows) rfl

/-- C10: the Report Formatter is deterministic — two invocations on
identical aggregate and statistics inputs produce the same (hence
byte-identical) report text. -/
theorem generar_reporte_deterministic (a b : Option (List (String × ℚ)))
    (s t : Option Describe) (ha : a = b) (hs : s = t) :
    generar_reporte a s = generar_reporte b t := by
  rw [ha, hs]

/-- Witness for C10: two runs on the example analysis artifacts. -/
theorem generar_reporte_deterministic_witness :
    generar_reporte (some (groupbySum exampleFrame.rows))
        (some (describe exampleFrame.rows)) =
      generar_reporte (some (groupbySum exampleFrame.rows))
        (some (describe exampleFrame.rows)) :=
  generar_reporte_deterministic _ _ _ _ rfl rfl
